import Mathlib

/-!
# Detector orchestration (`examples/detector.c`)

A shallow embedding of `test_detector` and `run_detector`.

Both functions are orchestration code: they call collaborators declared in
`darknet.h` and pass the results along.  The embedding makes that explicit:

* every collaborator whose result the code uses is a field of `Env`;
* a run produces the list of calls it makes, in program order (`Event`),
  each call with the arguments it was given;
* pointers are handles (`Nat`) or the value pointed to; a nullable
  `char *` is an `Option String`;
* `float` values are only passed along and once tested against zero, so a
  float is represented by the decimal number it stands for (`Rat`);
  rounding to binary32 is not modelled;
* the option lookups (`find_char_arg` and friends) receive `argv` itself
  and may rewrite it, so each lookup returns the argument vector it leaves
  behind.
-/

namespace Detector

/-- A C `float` (see the header: decimal value, no rounding). -/
abbrev CFloat := Rat

/-- The option list returned by `read_data_cfg` (`list *`), as a handle. -/
structure list where
  id : Nat
  deriving DecidableEq, Repr

/-- The part of `layer` that the code reads. -/
structure layer where
  classes : Int
  deriving DecidableEq, Repr

/-- The part of `network` that the code reads: input width and height and
the layer array.  A loaded network has at least one layer; `n` is the
number of layers. -/
structure network where
  w : Int
  h : Int
  layers : List layer
  nonempty : layers ≠ []

/-- The field `net->n`. -/
def network.n (net : network) : Nat := net.layers.length

/-- The expression `net->layers[net->n - 1]` (line 57). -/
def network.last_layer (net : network) : layer :=
  net.layers.get ⟨net.n - 1, by
    have h := List.length_pos.mpr net.nonempty
    unfold network.n
    omega⟩

instance : DecidableEq network := fun a b =>
  if h : a.w = b.w ∧ a.h = b.h ∧ a.layers = b.layers then
    isTrue (by cases a; cases b; simp_all)
  else
    isFalse (by intro hab; subst hab; simp at h)

/-- An `image`: width, height, channels and the pixel buffer (a handle). -/
structure image where
  w : Int
  h : Int
  c : Int
  data : Nat
  deriving DecidableEq, Repr

/-- The argument vector: `argv[i]` is `none` for a null pointer. -/
abbrev Argv := List (Option String)

/-- The read `argv[i]`.  The entry at `argc` is the terminating null
pointer, and so is every entry the list does not hold. -/
def Argv.nth (argv : Argv) (i : Nat) : Option String := argv.getD i none

/-- The calls a run makes.  A constructor carries the name of the function
called and the arguments passed.  `test_detector` is the entry of
`test_detector` itself; the clock value read by `what_time_is_it_now` and
the time difference printed by `debug_print` and `printf` are not
recorded. -/
inductive Event where
  | find_char_arg (arg : String) (dflt : Option String)
  | find_float_arg (arg : String) (dflt : CFloat)
  | find_int_arg (arg : String) (dflt : Int)
  | find_arg (arg : String)
  | fprintf_stderr (fmt : String) (args : List (Option String))
  | printf (fmt : String) (args : List (Option String))
  | debug_print (fmt : String)
  | what_time_is_it_now
  | read_data_cfg (filename : Option String)
  | option_find_str (l : list) (key : String) (dflt : Option String)
  | option_find_int (l : list) (key : String) (dflt : Int)
  | get_labels (filename : Option String)
  | load_network (cfg : Option String) (weights : Option String) (clear : Int)
  | set_batch_network (net : network) (b : Int)
  | load_alphabet
  | load_image_color (filename : Option String) (w : Int) (h : Int)
  | letterbox_image (im : image) (w : Int) (h : Int)
  | network_predict (net : network) (input : Nat)
  | get_network_boxes (net : network) (w : Int) (h : Int) (thresh : CFloat)
      (hier : CFloat) (map : Option Nat) (relative : Int)
  | do_nms_sort (dets : Nat) (total : Int) (classes : Int) (thresh : CFloat)
  | draw_detections (im : image) (dets : Nat) (num : Int) (thresh : CFloat)
      (names : List String) (alphabet : Nat) (classes : Int)
  | free_detections (dets : Nat) (n : Int)
  | save_image (im : image) (name : Option String)
  | free_image (im : image)
  | test_detector (datacfg : Option String) (cfgfile : Option String)
      (weightfile : Option String) (filename : Option String) (thresh : CFloat)
      (hier_thresh : CFloat) (outfile : Option String)
  | demo (cfgfile : Option String) (weightfile : Option String) (thresh : CFloat)
      (cam_index : Int) (filename : Option String) (names : List String)
      (classes : Int) (frame_skip : Int) (pref : Option String) (avg : Int)
      (hier_thresh : CFloat) (w : Int) (h : Int) (fps : Int) (fullscreen : Int)
  deriving DecidableEq

/-- The collaborators whose results the code uses.  The lookups return the
value found and the argument vector they leave behind; `get_network_boxes`
returns the detection array and the count written through `&nboxes`. -/
structure Env where
  find_char_arg : Int → Argv → String → Option String → Option String × Argv
  find_float_arg : Int → Argv → String → CFloat → CFloat × Argv
  find_int_arg : Int → Argv → String → Int → Int × Argv
  find_arg : Int → Argv → String → Int × Argv
  read_data_cfg : Option String → list
  option_find_str : list → String → Option String → Option String
  option_find_int : list → String → Int → Int
  get_labels : Option String → List String
  load_network : Option String → Option String → Int → network
  load_alphabet : Nat
  load_image_color : Option String → Int → Int → image
  letterbox_image : image → Int → Int → image
  get_network_boxes : network → Int → Int → CFloat → CFloat → Option Nat → Int → Nat × Int

/-- Lines 52-91 of `test_detector`: the branch taken when `filename` is
not null, with the locals it reads (`net`, `names`, `alphabet`, `nms`) as
arguments. -/
def test_detector_image (env : Env) (net : network) (names : List String)
    (alphabet : Nat) (nms : CFloat) (filename : Option String) (thresh : CFloat)
    (hier_thresh : CFloat) (outfile : Option String) : List Event :=
  let im := env.load_image_color filename 0 0
  let sized := env.letterbox_image im net.w net.h
  let l := net.last_layer
  let X := sized.data
  let boxes := env.get_network_boxes net im.w im.h thresh hier_thresh none 1
  let dets := boxes.1
  let nboxes := boxes.2
  [ Event.what_time_is_it_now,
    Event.load_image_color filename 0 0,
    Event.letterbox_image im net.w net.h,
    Event.debug_print "2- One image loaded: %lf seconds\n",
    Event.what_time_is_it_now,
    Event.network_predict net X,
    Event.what_time_is_it_now,
    Event.printf "%s: Predicted in %f seconds.\n" [filename],
    Event.debug_print "3- One image predicted: %lf seconds\n",
    Event.what_time_is_it_now,
    Event.get_network_boxes net im.w im.h thresh hier_thresh none 1 ]
  ++ (if nms ≠ 0 then [Event.do_nms_sort dets nboxes l.classes nms] else [])
  ++ [ Event.draw_detections im dets nboxes thresh names alphabet l.classes,
       Event.free_detections dets nboxes ]
  ++ (match outfile with
      | some o => [Event.save_image im (some o)]
      | none => [Event.save_image im (some "predictions")])
  ++ [ Event.free_image im,
       Event.free_image sized,
       Event.debug_print "4- One image boxed and ouputted: %lf seconds\n" ]

/-- The function `test_detector` (lines 24-93). -/
def test_detector (env : Env) (datacfg : Option String) (cfgfile : Option String)
    (weightfile : Option String) (filename : Option String) (thresh : CFloat)
    (hier_thresh : CFloat) (outfile : Option String) : List Event :=
  let options := env.read_data_cfg datacfg
  let name_list := env.option_find_str options "names" (some "data/names.list")
  let names := env.get_labels name_list
  let net := env.load_network cfgfile weightfile 0
  let alphabet := env.load_alphabet
  let nms : CFloat := 0.45
  [ Event.test_detector datacfg cfgfile weightfile filename thresh hier_thresh outfile,
    Event.what_time_is_it_now,
    Event.read_data_cfg datacfg,
    Event.option_find_str options "names" (some "data/names.list"),
    Event.get_labels name_list,
    Event.load_network cfgfile weightfile 0,
    Event.set_batch_network net 1,
    Event.load_alphabet,
    Event.debug_print "1- Arguments loaded and network parsed: %lf seconds\n" ]
  ++ (match filename with
      | none => [Event.fprintf_stderr "image file not defined: %s\n" [filename]]
      | some _ =>
        test_detector_image env net names alphabet nms filename thresh hier_thresh outfile)

/-- The function `run_detector` (lines 100-142).  The result is `none` when
the run reaches `strcmp` with a null `argv[2]`, which has no defined
behaviour; otherwise it is the list of calls made. -/
def run_detector (env : Env) (argc : Int) (argv : Argv) : Option (List Event) :=
  let r1 := env.find_char_arg argc argv "-prefix" none
  let pref := r1.1
  let r2 := env.find_float_arg argc r1.2 "-thresh" 0.5
  let thresh := r2.1
  let r3 := env.find_float_arg argc r2.2 "-hier" 0.5
  let hier_thresh := r3.1
  let r4 := env.find_int_arg argc r3.2 "-c" 0
  let cam_index := r4.1
  let r5 := env.find_int_arg argc r4.2 "-s" 0
  let frame_skip := r5.1
  let r6 := env.find_int_arg argc r5.2 "-avg" 3
  let avg := r6.1
  let head :=
    [ Event.find_char_arg "-prefix" none,
      Event.find_float_arg "-thresh" 0.5,
      Event.find_float_arg "-hier" 0.5,
      Event.find_int_arg "-c" 0,
      Event.find_int_arg "-s" 0,
      Event.find_int_arg "-avg" 3 ]
  if argc < 4 then
    some (head ++
      [Event.fprintf_stderr "usage: %s %s [test/demo] [cfg] [weights (optional)]\n"
        [r6.2.nth 0, r6.2.nth 1]])
  else
    let r7 := env.find_char_arg argc r6.2 "-out" none
    let outfile := r7.1
    let r8 := env.find_arg argc r7.2 "-fullscreen"
    let fullscreen := r8.1
    let r9 := env.find_int_arg argc r8.2 "-w" 0
    let width := r9.1
    let r10 := env.find_int_arg argc r9.2 "-h" 0
    let height := r10.1
    let r11 := env.find_int_arg argc r10.2 "-fps" 0
    let fps := r11.1
    let argv := r11.2
    let tail :=
      [ Event.find_char_arg "-out" none,
        Event.find_arg "-fullscreen",
        Event.find_int_arg "-w" 0,
        Event.find_int_arg "-h" 0,
        Event.find_int_arg "-fps" 0 ]
    let datacfg := argv.nth 3
    let cfg := argv.nth 4
    let weights := if argc > 5 then argv.nth 5 else none
    let filename := if argc > 6 then argv.nth 6 else none
    match argv.nth 2 with
    | none => none
    | some mode =>
      if mode = "test" then
        some (head ++ tail ++
          test_detector env datacfg cfg weights filename thresh hier_thresh outfile)
      else if mode = "demo" then
        let options := env.read_data_cfg datacfg
        let classes := env.option_find_int options "classes" 20
        let name_list := env.option_find_str options "names" (some "data/names.list")
        let names := env.get_labels name_list
        some (head ++ tail ++
          [ Event.read_data_cfg datacfg,
            Event.option_find_int options "classes" 20,
            Event.option_find_str options "names" (some "data/names.list"),
            Event.get_labels name_list,
            Event.demo cfg weights thresh cam_index filename names classes frame_skip
              pref avg hier_thresh width height fps fullscreen ])
      else
        some (head ++ tail ++
          [Event.fprintf_stderr "Not an option under classifier: %s\n" [some mode]])

/-! ## Vocabulary for the statements -/

/-- The option lookups of `run_detector`. -/
def Event.is_lookup : Event → Bool
  | Event.find_char_arg _ _ => true
  | Event.find_float_arg _ _ => true
  | Event.find_int_arg _ _ => true
  | Event.find_arg _ => true
  | _ => false

/-- Config parsing and model loading. -/
def Event.is_setup : Event → Bool
  | Event.read_data_cfg _ => true
  | Event.option_find_str _ _ _ => true
  | Event.option_find_int _ _ _ => true
  | Event.get_labels _ => true
  | Event.load_network _ _ _ => true
  | _ => false

/-- The seven per-frame stages: load, letterbox, predict, decode, NMS,
draw, save. -/
def Event.is_stage : Event → Bool
  | Event.load_image_color _ _ _ => true
  | Event.letterbox_image _ _ _ => true
  | Event.network_predict _ _ => true
  | Event.get_network_boxes _ _ _ _ _ _ _ => true
  | Event.do_nms_sort _ _ _ _ => true
  | Event.draw_detections _ _ _ _ _ _ _ => true
  | Event.save_image _ _ => true
  | _ => false

/-- A call of `do_nms_sort`. -/
def Event.is_nms : Event → Bool
  | Event.do_nms_sort _ _ _ _ => true
  | _ => false

/-- A call of `get_network_boxes`. -/
def Event.is_decode : Event → Bool
  | Event.get_network_boxes _ _ _ _ _ _ _ => true
  | _ => false

/-- A call of `draw_detections`. -/
def Event.is_draw : Event → Bool
  | Event.draw_detections _ _ _ _ _ _ _ => true
  | _ => false

/-- A call of `save_image`. -/
def Event.is_save : Event → Bool
  | Event.save_image _ _ => true
  | _ => false

/-- A call of `letterbox_image`. -/
def Event.is_letterbox : Event → Bool
  | Event.letterbox_image _ _ _ => true
  | _ => false

/-- A call that receives the detection array. -/
def Event.is_on_detections : Event → Bool
  | Event.do_nms_sort _ _ _ _ => true
  | Event.draw_detections _ _ _ _ _ _ _ => true
  | Event.free_detections _ _ => true
  | _ => false

/-- A release: `free_image` or `free_detections`. -/
def Event.is_release : Event → Bool
  | Event.free_image _ => true
  | Event.free_detections _ _ => true
  | _ => false

/-- A write to the error stream. -/
def Event.is_stderr : Event → Bool
  | Event.fprintf_stderr _ _ => true
  | _ => false

/-- An entry of `test_detector`. -/
def Event.is_test_detector : Event → Bool
  | Event.test_detector _ _ _ _ _ _ _ => true
  | _ => false

/-- A call of `demo`. -/
def Event.is_demo : Event → Bool
  | Event.demo _ _ _ _ _ _ _ _ _ _ _ _ _ _ _ => true
  | _ => false

/-- A mode dispatch: an entry of `test_detector` or a call of `demo`. -/
def Event.is_dispatch (e : Event) : Bool := e.is_test_detector || e.is_demo

/-- A call that reads or releases the pixel buffer `p`: it receives an
image whose `data` is `p`, or `p` itself. -/
def Event.uses_buffer (p : Nat) : Event → Bool
  | Event.letterbox_image im _ _ => im.data == p
  | Event.network_predict _ X => X == p
  | Event.draw_detections im _ _ _ _ _ _ => im.data == p
  | Event.save_image im _ => im.data == p
  | Event.free_image im => im.data == p
  | _ => false

/-- A call of `free_image` on an image whose `data` is `p`. -/
def Event.frees_buffer (p : Nat) : Event → Bool
  | Event.free_image im => im.data == p
  | _ => false

/-- A call that reads or releases the detection array `d`. -/
def Event.uses_detections (d : Nat) : Event → Bool
  | Event.do_nms_sort dets _ _ _ => dets == d
  | Event.draw_detections _ dets _ _ _ _ _ => dets == d
  | Event.free_detections dets _ => dets == d
  | _ => false

/-- A call of `free_detections` on the array `d`. -/
def Event.frees_detections (d : Nat) : Event → Bool
  | Event.free_detections dets _ => dets == d
  | _ => false

/-- In the run `tr` the resource is released exactly once and no call
after the release touches it: `frees` recognises the release, `uses` every
call on the resource (the release included). -/
def released_once (uses : Event → Bool) (frees : Event → Bool) (tr : List Event) : Prop :=
  (tr.filter frees).length = 1 ∧
  ∀ e ∈ (tr.dropWhile (fun e => !frees e)).drop 1, uses e = false

instance (uses : Event → Bool) (frees : Event → Bool) (tr : List Event) :
    Decidable (released_once uses frees tr) := by
  unfold released_once
  infer_instance

/-! ### The state of `run_detector` after its option lookups -/

/-- Result of line 103. -/
def opt_pref (env : Env) (argc : Int) (argv : Argv) : Option String × Argv :=
  env.find_char_arg argc argv "-prefix" none

/-- Result of line 104. -/
def opt_thresh (env : Env) (argc : Int) (argv : Argv) : CFloat × Argv :=
  env.find_float_arg argc (opt_pref env argc argv).2 "-thresh" 0.5

/-- Result of line 105. -/
def opt_hier (env : Env) (argc : Int) (argv : Argv) : CFloat × Argv :=
  env.find_float_arg argc (opt_thresh env argc argv).2 "-hier" 0.5

/-- Result of line 106. -/
def opt_cam_index (env : Env) (argc : Int) (argv : Argv) : Int × Argv :=
  env.find_int_arg argc (opt_hier env argc argv).2 "-c" 0

/-- Result of line 107. -/
def opt_frame_skip (env : Env) (argc : Int) (argv : Argv) : Int × Argv :=
  env.find_int_arg argc (opt_cam_index env argc argv).2 "-s" 0

/-- Result of line 108. -/
def opt_avg (env : Env) (argc : Int) (argv : Argv) : Int × Argv :=
  env.find_int_arg argc (opt_frame_skip env argc argv).2 "-avg" 3

/-- Result of line 115. -/
def opt_outfile (env : Env) (argc : Int) (argv : Argv) : Option String × Argv :=
  env.find_char_arg argc (opt_avg env argc argv).2 "-out" none

/-- Result of line 117. -/
def opt_fullscreen (env : Env) (argc : Int) (argv : Argv) : Int × Argv :=
  env.find_arg argc (opt_outfile env argc argv).2 "-fullscreen"

/-- Result of line 118. -/
def opt_width (env : Env) (argc : Int) (argv : Argv) : Int × Argv :=
  env.find_int_arg argc (opt_fullscreen env argc argv).2 "-w" 0

/-- Result of line 119. -/
def opt_height (env : Env) (argc : Int) (argv : Argv) : Int × Argv :=
  env.find_int_arg argc (opt_width env argc argv).2 "-h" 0

/-- Result of line 120. -/
def opt_fps (env : Env) (argc : Int) (argv : Argv) : Int × Argv :=
  env.find_int_arg argc (opt_height env argc argv).2 "-fps" 0

/-- The argument vector as lines 122-140 read it: what the eleven lookups
leave behind. -/
def argv_at_dispatch (env : Env) (argc : Int) (argv : Argv) : Argv :=
  (opt_fps env argc argv).2

/-! ### The values `test_detector` obtains from its collaborators -/

/-- The network of line 35. -/
def loaded_network (env : Env) (cfgfile : Option String) (weightfile : Option String) :
    network :=
  env.load_network cfgfile weightfile 0

/-- The labels of lines 30-32. -/
def loaded_names (env : Env) (datacfg : Option String) : List String :=
  env.get_labels
    (env.option_find_str (env.read_data_cfg datacfg) "names" (some "data/names.list"))

/-- The image of line 55. -/
def loaded_image (env : Env) (filename : Option String) : image :=
  env.load_image_color filename 0 0

/-- The image of line 56. -/
def letterboxed_image (env : Env) (net : network) (filename : Option String) : image :=
  env.letterbox_image (loaded_image env filename) net.w net.h

/-- The detection array and count of line 72. -/
def decoded (env : Env) (net : network) (filename : Option String) (thresh : CFloat)
    (hier_thresh : CFloat) : Nat × Int :=
  env.get_network_boxes net (loaded_image env filename).w (loaded_image env filename).h
    thresh hier_thresh none 1

/-! ### A concrete environment and command line -/

/-- An environment in which no option is given on the command line: every
lookup returns its default and leaves `argv` alone. -/
def sample_env : Env where
  find_char_arg := fun _ argv _ dflt => (dflt, argv)
  find_float_arg := fun _ argv _ dflt => (dflt, argv)
  find_int_arg := fun _ argv _ dflt => (dflt, argv)
  find_arg := fun _ argv _ => (0, argv)
  read_data_cfg := fun _ => ⟨1⟩
  option_find_str := fun _ _ dflt => dflt
  option_find_int := fun _ _ dflt => dflt
  get_labels := fun _ => ["person", "bicycle", "dog"]
  load_network := fun _ _ _ => ⟨416, 416, [⟨0⟩, ⟨3⟩], by simp⟩
  load_alphabet := 7
  load_image_color := fun _ _ _ => ⟨768, 576, 3, 100⟩
  letterbox_image := fun _ w h => ⟨w, h, 3, 200⟩
  get_network_boxes := fun _ _ _ _ _ _ _ => (300, 2)

/-- The command line `darknet detector test cfg/coco.data cfg/yolov3.cfg
yolov3.weights data/dog.jpg`. -/
def sample_argv : Argv :=
  [some "darknet", some "detector", some "test", some "cfg/coco.data",
   some "cfg/yolov3.cfg", some "yolov3.weights", some "data/dog.jpg"]

/-- The lookups of lines 103-108. -/
def head_lookups : List Event :=
  [ Event.find_char_arg "-prefix" none,
    Event.find_float_arg "-thresh" 0.5,
    Event.find_float_arg "-hier" 0.5,
    Event.find_int_arg "-c" 0,
    Event.find_int_arg "-s" 0,
    Event.find_int_arg "-avg" 3 ]

/-- The lookups of lines 115-120. -/
def tail_lookups : List Event :=
  [ Event.find_char_arg "-out" none,
    Event.find_arg "-fullscreen",
    Event.find_int_arg "-w" 0,
    Event.find_int_arg "-h" 0,
    Event.find_int_arg "-fps" 0 ]

/-- The command line `darknet detector test cfg/coco.data`. -/
def short_argv : Argv :=
  [some "darknet", some "detector", some "test", some "cfg/coco.data"]

/-- The command line `darknet detector train cfg/coco.data cfg/yolov3.cfg`. -/
def train_argv : Argv :=
  [some "darknet", some "detector", some "train", some "cfg/coco.data",
   some "cfg/yolov3.cfg"]

/-- The command line `darknet detector test cfg/coco.data cfg/yolov3.cfg
yolov3.weights data/dog.jpg -nms 0`. -/
def nms_zero_argv : Argv :=
  sample_argv ++ [some "-nms", some "0"]

/-- The command line `darknet detector test cfg/coco.data cfg/yolov3.cfg
yolov3.weights data/dog.jpg -nms_iou_threshold -1`. -/
def nms_negative_argv : Argv :=
  sample_argv ++ [some "-nms_iou_threshold", some "-1"]

/-! ## Theorems -/

/-- The layer read at line 57 is the last element of the layer array. -/
theorem network.last_layer_eq_getLast (net : network) :
    net.last_layer = net.layers.getLast net.nonempty := by
  unfold network.last_layer network.n
  rw [List.getLast_eq_getElem]
  rfl

/-- A run of `test_detector` holds one dispatch: its own entry. -/
theorem test_detector_filter_dispatch (env : Env) (datacfg cfgfile weightfile : Option String)
    (filename : Option String) (thresh hier_thresh : CFloat) (outfile : Option String) :
    (test_detector env datacfg cfgfile weightfile filename thresh hier_thresh outfile).filter
        Event.is_dispatch
      = [Event.test_detector datacfg cfgfile weightfile filename thresh hier_thresh outfile] := by
  by_cases h : (0.45 : CFloat) = 0 <;> cases filename <;> cases outfile <;>
    simp [test_detector, test_detector_image, Event.is_dispatch, Event.is_test_detector,
      Event.is_demo, h]

/-- A run of `test_detector` never calls `demo`. -/
theorem test_detector_any_demo (env : Env) (datacfg cfgfile weightfile : Option String)
    (filename : Option String) (thresh hier_thresh : CFloat) (outfile : Option String) :
    (test_detector env datacfg cfgfile weightfile filename thresh hier_thresh outfile).any
        Event.is_demo = false := by
  by_cases h : (0.45 : CFloat) = 0 <;> cases filename <;> cases outfile <;>
    simp [test_detector, test_detector_image, Event.is_demo, h]

/-- A run of `test_detector` starts with its entry. -/
theorem test_detector_any_entry (env : Env) (datacfg cfgfile weightfile : Option String)
    (filename : Option String) (thresh hier_thresh : CFloat) (outfile : Option String) :
    (test_detector env datacfg cfgfile weightfile filename thresh hier_thresh outfile).any
        Event.is_test_detector = true := by
  simp [test_detector, Event.is_test_detector]

/-- The run of `run_detector` when `argc < 4`. -/
theorem run_detector_usage (env : Env) (argc : Int) (argv : Argv) (hargc : argc < 4) :
    run_detector env argc argv = some (head_lookups ++
      [Event.fprintf_stderr "usage: %s %s [test/demo] [cfg] [weights (optional)]\n"
        [(opt_avg env argc argv).2.nth 0, (opt_avg env argc argv).2.nth 1]]) := by
  simp only [opt_avg, opt_frame_skip, opt_cam_index, opt_hier, opt_thresh, opt_pref]
  unfold run_detector
  simp only [hargc, if_true, head_lookups]

/-- The run of `run_detector` when `argv[2]` is null. -/
theorem run_detector_null_mode (env : Env) (argc : Int) (argv : Argv)
    (hargc : 4 ≤ argc) (hmode : (argv_at_dispatch env argc argv).nth 2 = none) :
    run_detector env argc argv = none := by
  have hlt : ¬ argc < 4 := not_lt.mpr hargc
  simp only [argv_at_dispatch, opt_fps, opt_height, opt_width, opt_fullscreen, opt_outfile,
    opt_avg, opt_frame_skip, opt_cam_index, opt_hier, opt_thresh, opt_pref] at hmode ⊢
  unfold run_detector
  simp only [hlt, if_false, hmode]

/-- The run of `run_detector` in test mode. -/
theorem run_detector_test (env : Env) (argc : Int) (argv : Argv)
    (hargc : 4 ≤ argc) (hmode : (argv_at_dispatch env argc argv).nth 2 = some "test") :
    run_detector env argc argv = some (head_lookups ++ tail_lookups ++
      test_detector env ((argv_at_dispatch env argc argv).nth 3)
        ((argv_at_dispatch env argc argv).nth 4)
        (if argc > 5 then (argv_at_dispatch env argc argv).nth 5 else none)
        (if argc > 6 then (argv_at_dispatch env argc argv).nth 6 else none)
        (opt_thresh env argc argv).1 (opt_hier env argc argv).1
        (opt_outfile env argc argv).1) := by
  have hlt : ¬ argc < 4 := not_lt.mpr hargc
  simp only [argv_at_dispatch, opt_fps, opt_height, opt_width, opt_fullscreen, opt_outfile,
    opt_avg, opt_frame_skip, opt_cam_index, opt_hier, opt_thresh, opt_pref] at hmode ⊢
  unfold run_detector
  simp only [hlt, if_false, hmode, if_true, head_lookups, tail_lookups]

/-- The run of `run_detector` in demo mode. -/
theorem run_detector_demo (env : Env) (argc : Int) (argv : Argv)
    (hargc : 4 ≤ argc) (hmode : (argv_at_dispatch env argc argv).nth 2 = some "demo") :
    run_detector env argc argv = some (head_lookups ++ tail_lookups ++
      [ Event.read_data_cfg ((argv_at_dispatch env argc argv).nth 3),
        Event.option_find_int (env.read_data_cfg ((argv_at_dispatch env argc argv).nth 3))
          "classes" 20,
        Event.option_find_str (env.read_data_cfg ((argv_at_dispatch env argc argv).nth 3))
          "names" (some "data/names.list"),
        Event.get_labels (env.option_find_str
          (env.read_data_cfg ((argv_at_dispatch env argc argv).nth 3))
          "names" (some "data/names.list")),
        Event.demo ((argv_at_dispatch env argc argv).nth 4)
          (if argc > 5 then (argv_at_dispatch env argc argv).nth 5 else none)
          (opt_thresh env argc argv).1 (opt_cam_index env argc argv).1
          (if argc > 6 then (argv_at_dispatch env argc argv).nth 6 else none)
          (loaded_names env ((argv_at_dispatch env argc argv).nth 3))
          (env.option_find_int (env.read_data_cfg ((argv_at_dispatch env argc argv).nth 3))
            "classes" 20)
          (opt_frame_skip env argc argv).1 (opt_pref env argc argv).1
          (opt_avg env argc argv).1 (opt_hier env argc argv).1 (opt_width env argc argv).1
          (opt_height env argc argv).1 (opt_fps env argc argv).1
          (opt_fullscreen env argc argv).1 ]) := by
  have hlt : ¬ argc < 4 := not_lt.mpr hargc
  have hne : ¬ ("demo" = "test") := by decide
  simp only [argv_at_dispatch, opt_fps, opt_height, opt_width, opt_fullscreen, opt_outfile,
    opt_avg, opt_frame_skip, opt_cam_index, opt_hier, opt_thresh, opt_pref, loaded_names]
    at hmode ⊢
  unfold run_detector
  simp only [hlt, if_false, hmode, if_true, hne, head_lookups, tail_lookups]

/-- The run of `run_detector` for a selector other than `test` and `demo`. -/
theorem run_detector_other (env : Env) (argc : Int) (argv : Argv) (mode : String)
    (hargc : 4 ≤ argc) (hmode : (argv_at_dispatch env argc argv).nth 2 = some mode)
    (htest : mode ≠ "test") (hdemo : mode ≠ "demo") :
    run_detector env argc argv = some (head_lookups ++ tail_lookups ++
      [Event.fprintf_stderr "Not an option under classifier: %s\n" [some mode]]) := by
  have hlt : ¬ argc < 4 := not_lt.mpr hargc
  simp only [argv_at_dispatch, opt_fps, opt_height, opt_width, opt_fullscreen, opt_outfile,
    opt_avg, opt_frame_skip, opt_cam_index, opt_hier, opt_thresh, opt_pref] at hmode ⊢
  unfold run_detector
  simp only [hlt, if_false, hmode, if_true, htest, hdemo, head_lookups, tail_lookups]

/-- C1: when `argc >= 4` and the mode selector `argv[2]`, as line 128
reads it, is a string other than `test` and `demo`, `run_detector` returns
and, apart from its option lookups, its only call is the diagnostic
`Not an option under classifier` on the error stream, with the selector as
argument: no entry of `test_detector`, no `demo`, no config parse, model
load or per-frame stage. -/
theorem run_detector_unknown_mode (env : Env) (argc : Int) (argv : Argv) (mode : String)
    (hargc : 4 ≤ argc) (hmode : (argv_at_dispatch env argc argv).nth 2 = some mode)
    (htest : mode ≠ "test") (hdemo : mode ≠ "demo") :
    ∃ tr, run_detector env argc argv = some tr
      ∧ tr.filter (fun e => !e.is_lookup)
        = [Event.fprintf_stderr "Not an option under classifier: %s\n" [some mode]] := by
  simp only [argv_at_dispatch, opt_fps, opt_height, opt_width, opt_fullscreen, opt_outfile,
    opt_avg, opt_frame_skip, opt_cam_index, opt_hier, opt_thresh, opt_pref] at hmode
  have hlt : ¬ argc < 4 := not_lt.mpr hargc
  simp [run_detector, hlt, hmode, htest, hdemo, Event.is_lookup]

/-- C1 at the command line `darknet detector train cfg/coco.data
cfg/yolov3.cfg`. -/
theorem run_detector_unknown_mode_witness :
    (4 : Int) ≤ 5
    ∧ (argv_at_dispatch sample_env 5 train_argv).nth 2 = some "train"
    ∧ "train" ≠ "test" ∧ "train" ≠ "demo"
    ∧ ∃ tr, run_detector sample_env 5 train_argv = some tr
      ∧ tr.filter (fun e => !e.is_lookup)
        = [Event.fprintf_stderr "Not an option under classifier: %s\n" [some "train"]] :=
  ⟨by decide, rfl, by decide, by decide,
   run_detector_unknown_mode sample_env 5 train_argv "train" (by decide) rfl (by decide)
     (by decide)⟩

/-- C2: when `filename` is null, `test_detector` writes the diagnostic
`image file not defined` to the error stream as its last action, and it
calls none of the seven per-frame stages. -/
theorem test_detector_absent_image (env : Env) (datacfg cfgfile weightfile : Option String)
    (thresh hier_thresh : CFloat) (outfile : Option String) :
    (test_detector env datacfg cfgfile weightfile none thresh hier_thresh outfile).filter
        (fun e => e.is_stderr || e.is_stage || e.is_release)
      = [Event.fprintf_stderr "image file not defined: %s\n" [none]]
    ∧ (test_detector env datacfg cfgfile weightfile none thresh hier_thresh outfile).getLast?
      = some (Event.fprintf_stderr "image file not defined: %s\n" [none]) := by
  constructor <;> simp [test_detector, Event.is_stderr, Event.is_stage, Event.is_release]

/-- C3 at the command line `darknet detector test cfg/coco.data`, where
`argc` is 4 and the network-config path is missing: `run_detector` writes
no usage message; it enters `test_detector` with a null `cfgfile`, and
`load_network` is called with it. -/
theorem run_detector_four_arguments :
    (run_detector sample_env 4 short_argv).map
        (fun tr => tr.filter (fun e => e.is_stderr || e.is_dispatch || e.is_setup))
      = some [ Event.test_detector (some "cfg/coco.data") none none none 0.5 0.5 none,
               Event.read_data_cfg (some "cfg/coco.data"),
               Event.option_find_str ⟨1⟩ "names" (some "data/names.list"),
               Event.get_labels (some "data/names.list"),
               Event.load_network none none 0,
               Event.fprintf_stderr "image file not defined: %s\n" [none] ] := by
  rfl

/-- C4: with a present input image, `test_detector` calls `save_image`
exactly once, on the image returned by `load_image_color`, after
`draw_detections` was called on that same image; the destination is
`outfile` when it is not null and `predictions` otherwise.  This holds
whatever the decoder returns. -/
theorem test_detector_saves_once (env : Env) (datacfg cfgfile weightfile : Option String)
    (f : String) (thresh hier_thresh : CFloat) (outfile : Option String) :
    (test_detector env datacfg cfgfile weightfile (some f) thresh hier_thresh outfile).filter
        (fun e => e.is_draw || e.is_save)
      = [ Event.draw_detections (loaded_image env (some f))
            (decoded env (loaded_network env cfgfile weightfile) (some f) thresh hier_thresh).1
            (decoded env (loaded_network env cfgfile weightfile) (some f) thresh hier_thresh).2
            thresh (loaded_names env datacfg) env.load_alphabet
            (loaded_network env cfgfile weightfile).last_layer.classes,
          Event.save_image (loaded_image env (some f)) (some (outfile.getD "predictions")) ] := by
  cases outfile <;>
    simp [test_detector, test_detector_image, Event.is_draw, Event.is_save, loaded_image,
      decoded, loaded_network, loaded_names]

/-- C5, as amended: the NMS threshold of the test-mode pipeline is not a
configuration value but the constant 0.45 of line 40.  Whatever the
arguments of `test_detector` and whatever its collaborators return, a call
with a present input image calls `do_nms_sort` exactly once, with 0.45, on
the decoder's array and count and with the class count of the last element
of the network's layer array; and so does every test-mode run of
`run_detector` with a present input image, whatever the command line. -/
theorem nms_threshold_is_fixed :
    (∀ (env : Env) (datacfg cfgfile weightfile : Option String) (f : String)
        (thresh hier_thresh : CFloat) (outfile : Option String),
        (test_detector env datacfg cfgfile weightfile (some f) thresh hier_thresh
            outfile).filter Event.is_nms
          = [ Event.do_nms_sort
                (decoded env (loaded_network env cfgfile weightfile) (some f) thresh
                  hier_thresh).1
                (decoded env (loaded_network env cfgfile weightfile) (some f) thresh
                  hier_thresh).2
                ((loaded_network env cfgfile weightfile).layers.getLast
                  (loaded_network env cfgfile weightfile).nonempty).classes 0.45 ])
    ∧ (∀ (env : Env) (argc : Int) (argv : Argv) (f : String),
        6 < argc → (argv_at_dispatch env argc argv).nth 2 = some "test" →
        (argv_at_dispatch env argc argv).nth 6 = some f →
        ∃ tr, run_detector env argc argv = some tr
          ∧ tr.filter Event.is_nms
            = [ Event.do_nms_sort
                  (decoded env (loaded_network env ((argv_at_dispatch env argc argv).nth 4)
                    ((argv_at_dispatch env argc argv).nth 5)) (some f)
                    (opt_thresh env argc argv).1 (opt_hier env argc argv).1).1
                  (decoded env (loaded_network env ((argv_at_dispatch env argc argv).nth 4)
                    ((argv_at_dispatch env argc argv).nth 5)) (some f)
                    (opt_thresh env argc argv).1 (opt_hier env argc argv).1).2
                  ((loaded_network env ((argv_at_dispatch env argc argv).nth 4)
                    ((argv_at_dispatch env argc argv).nth 5)).layers.getLast
                    (loaded_network env ((argv_at_dispatch env argc argv).nth 4)
                      ((argv_at_dispatch env argc argv).nth 5)).nonempty).classes 0.45 ]) := by
  have hnms : ¬ ((0.45 : CFloat) = 0) := by norm_num
  have hhead : head_lookups.filter Event.is_nms = [] := by decide
  have htail : tail_lookups.filter Event.is_nms = [] := by decide
  have hcall : ∀ (env : Env) (datacfg cfgfile weightfile : Option String) (f : String)
      (thresh hier_thresh : CFloat) (outfile : Option String),
      (test_detector env datacfg cfgfile weightfile (some f) thresh hier_thresh
          outfile).filter Event.is_nms
        = [ Event.do_nms_sort
              (decoded env (loaded_network env cfgfile weightfile) (some f) thresh
                hier_thresh).1
              (decoded env (loaded_network env cfgfile weightfile) (some f) thresh
                hier_thresh).2
              ((loaded_network env cfgfile weightfile).layers.getLast
                (loaded_network env cfgfile weightfile).nonempty).classes 0.45 ] := by
    intro env datacfg cfgfile weightfile f thresh hier_thresh outfile
    rw [← network.last_layer_eq_getLast]
    cases outfile <;>
      simp [test_detector, test_detector_image, Event.is_nms, loaded_image, decoded,
        loaded_network, hnms]
  refine ⟨hcall, ?_⟩
  intro env argc argv f hargc hmode hfile
  have hge : 4 ≤ argc := by omega
  have h5 : argc > 5 := by omega
  have h6 : argc > 6 := hargc
  refine ⟨_, run_detector_test env argc argv hge hmode, ?_⟩
  rw [List.filter_append, List.filter_append, hhead, htail, if_pos h5, if_pos h6, hfile]
  exact hcall env _ _ _ f _ _ _

/-- C5 at the sample command line: the run is in test mode with a present
image, and `do_nms_sort` is called once, with 0.45. -/
theorem nms_threshold_is_fixed_witness :
    (6 : Int) < 7
    ∧ (argv_at_dispatch sample_env 7 sample_argv).nth 2 = some "test"
    ∧ (argv_at_dispatch sample_env 7 sample_argv).nth 6 = some "data/dog.jpg"
    ∧ ∃ tr, run_detector sample_env 7 sample_argv = some tr
      ∧ tr.filter Event.is_nms = [Event.do_nms_sort 300 2 3 0.45] :=
  ⟨by decide, rfl, rfl,
   nms_threshold_is_fixed.2 sample_env 7 sample_argv "data/dog.jpg" (by decide) rfl rfl⟩

/-- C5, as stated, fails: the threshold is not a configuration value.  The
command lines `darknet detector test cfg/coco.data cfg/yolov3.cfg
yolov3.weights data/dog.jpg -nms 0` and `... data/dog.jpg
-nms_iou_threshold -1` ask for a threshold that is not positive; none of
the eleven options that `run_detector` looks up occurs on them, so every
lookup returns its default; and both runs call `do_nms_sort`, with 0.45. -/
theorem nms_option_is_ignored :
    (∃ tr, run_detector sample_env 9 nms_zero_argv = some tr
      ∧ tr.filter Event.is_nms = [Event.do_nms_sort 300 2 3 0.45])
    ∧ (∃ tr, run_detector sample_env 9 nms_negative_argv = some tr
      ∧ tr.filter Event.is_nms = [Event.do_nms_sort 300 2 3 0.45]) := by
  have hnms : ¬ ((0.45 : CFloat) = 0) := by norm_num
  constructor
  · refine ⟨_, run_detector_test sample_env 9 nms_zero_argv (by decide) rfl, ?_⟩
    simp [head_lookups, tail_lookups, test_detector, test_detector_image, Event.is_nms,
      sample_env, nms_zero_argv, sample_argv, argv_at_dispatch, opt_fps, opt_height, opt_width,
      opt_fullscreen, opt_outfile, opt_avg, opt_frame_skip, opt_cam_index, opt_hier,
      opt_thresh, opt_pref, Argv.nth, network.last_layer, network.n, hnms]
  · refine ⟨_, run_detector_test sample_env 9 nms_negative_argv (by decide) rfl, ?_⟩
    simp [head_lookups, tail_lookups, test_detector, test_detector_image, Event.is_nms,
      sample_env, nms_negative_argv, sample_argv, argv_at_dispatch, opt_fps, opt_height, opt_width,
      opt_fullscreen, opt_outfile, opt_avg, opt_frame_skip, opt_cam_index, opt_hier,
      opt_thresh, opt_pref, Argv.nth, network.last_layer, network.n, hnms]

/-- C6: in a test-mode run of `run_detector` with a present input image
(`argc > 6`, `argv[2]` is `test`, `argv[6]` not null), `get_network_boxes`
receives the values that `find_float_arg` returned for `-thresh` and
`-hier`, unchanged, and `do_nms_sort` receives 0.45; when both lookups
return their default, as they do when the flags are absent,
`get_network_boxes` receives 0.5 and 0.5. -/
theorem run_detector_thresholds (env : Env) (argc : Int) (argv : Argv) (f : String)
    (hargc : 6 < argc) (hmode : (argv_at_dispatch env argc argv).nth 2 = some "test")
    (hfile : (argv_at_dispatch env argc argv).nth 6 = some f) :
    ∃ tr, run_detector env argc argv = some tr
      ∧ tr.filter (fun e => e.is_decode || e.is_nms)
        = [ Event.get_network_boxes
              (loaded_network env ((argv_at_dispatch env argc argv).nth 4)
                ((argv_at_dispatch env argc argv).nth 5))
              (loaded_image env (some f)).w (loaded_image env (some f)).h
              (opt_thresh env argc argv).1 (opt_hier env argc argv).1 none 1,
            Event.do_nms_sort
              (decoded env (loaded_network env ((argv_at_dispatch env argc argv).nth 4)
                ((argv_at_dispatch env argc argv).nth 5)) (some f)
                (opt_thresh env argc argv).1 (opt_hier env argc argv).1).1
              (decoded env (loaded_network env ((argv_at_dispatch env argc argv).nth 4)
                ((argv_at_dispatch env argc argv).nth 5)) (some f)
                (opt_thresh env argc argv).1 (opt_hier env argc argv).1).2
              (loaded_network env ((argv_at_dispatch env argc argv).nth 4)
                ((argv_at_dispatch env argc argv).nth 5)).last_layer.classes 0.45 ]
      ∧ ((env.find_float_arg argc (opt_pref env argc argv).2 "-thresh" 0.5).1 = 0.5 →
         (env.find_float_arg argc (opt_thresh env argc argv).2 "-hier" 0.5).1 = 0.5 →
          tr.filter (fun e => e.is_decode || e.is_nms)
            = [ Event.get_network_boxes
                  (loaded_network env ((argv_at_dispatch env argc argv).nth 4)
                    ((argv_at_dispatch env argc argv).nth 5))
                  (loaded_image env (some f)).w (loaded_image env (some f)).h 0.5 0.5 none 1,
                Event.do_nms_sort
                  (decoded env (loaded_network env ((argv_at_dispatch env argc argv).nth 4)
                    ((argv_at_dispatch env argc argv).nth 5)) (some f) 0.5 0.5).1
                  (decoded env (loaded_network env ((argv_at_dispatch env argc argv).nth 4)
                    ((argv_at_dispatch env argc argv).nth 5)) (some f) 0.5 0.5).2
                  (loaded_network env ((argv_at_dispatch env argc argv).nth 4)
                    ((argv_at_dispatch env argc argv).nth 5)).last_layer.classes 0.45 ]) := by
  have hge : 4 ≤ argc := by omega
  have h5 : argc > 5 := by omega
  have h6 : argc > 6 := hargc
  have hnms : ¬ ((0.45 : CFloat) = 0) := by norm_num
  have hhead : head_lookups.filter (fun e => e.is_decode || e.is_nms) = [] := by decide
  have htail : tail_lookups.filter (fun e => e.is_decode || e.is_nms) = [] := by decide
  have key : (head_lookups ++ tail_lookups ++
      test_detector env ((argv_at_dispatch env argc argv).nth 3)
        ((argv_at_dispatch env argc argv).nth 4)
        (if argc > 5 then (argv_at_dispatch env argc argv).nth 5 else none)
        (if argc > 6 then (argv_at_dispatch env argc argv).nth 6 else none)
        (opt_thresh env argc argv).1 (opt_hier env argc argv).1
        (opt_outfile env argc argv).1).filter (fun e => e.is_decode || e.is_nms)
        = [ Event.get_network_boxes
              (loaded_network env ((argv_at_dispatch env argc argv).nth 4)
                ((argv_at_dispatch env argc argv).nth 5))
              (loaded_image env (some f)).w (loaded_image env (some f)).h
              (opt_thresh env argc argv).1 (opt_hier env argc argv).1 none 1,
            Event.do_nms_sort
              (decoded env (loaded_network env ((argv_at_dispatch env argc argv).nth 4)
                ((argv_at_dispatch env argc argv).nth 5)) (some f)
                (opt_thresh env argc argv).1 (opt_hier env argc argv).1).1
              (decoded env (loaded_network env ((argv_at_dispatch env argc argv).nth 4)
                ((argv_at_dispatch env argc argv).nth 5)) (some f)
                (opt_thresh env argc argv).1 (opt_hier env argc argv).1).2
              (loaded_network env ((argv_at_dispatch env argc argv).nth 4)
                ((argv_at_dispatch env argc argv).nth 5)).last_layer.classes 0.45 ] := by
    rw [List.filter_append, List.filter_append, hhead, htail, if_pos h5, if_pos h6, hfile]
    cases (opt_outfile env argc argv).1 <;>
      simp [test_detector, test_detector_image, Event.is_decode, Event.is_nms, loaded_image,
        decoded, loaded_network, hnms]
  refine ⟨_, run_detector_test env argc argv hge hmode, key, ?_⟩
  intro ht hh
  have ht2 : (opt_thresh env argc argv).1 = 0.5 := ht
  have hh2 : (opt_hier env argc argv).1 = 0.5 := hh
  rw [key, ht2, hh2]

/-- C6 at the sample command line, which has neither `-thresh` nor
`-hier`. -/
theorem run_detector_thresholds_witness :
    (6 : Int) < 7
    ∧ (argv_at_dispatch sample_env 7 sample_argv).nth 2 = some "test"
    ∧ (argv_at_dispatch sample_env 7 sample_argv).nth 6 = some "data/dog.jpg"
    ∧ (sample_env.find_float_arg 7 (opt_pref sample_env 7 sample_argv).2 "-thresh" 0.5).1
        = 0.5
    ∧ (sample_env.find_float_arg 7 (opt_thresh sample_env 7 sample_argv).2 "-hier" 0.5).1
        = 0.5
    ∧ ∃ tr, run_detector sample_env 7 sample_argv = some tr
      ∧ tr.filter (fun e => e.is_decode || e.is_nms)
        = [ Event.get_network_boxes
              (loaded_network sample_env (some "cfg/yolov3.cfg") (some "yolov3.weights"))
              768 576 0.5 0.5 none 1,
            Event.do_nms_sort 300 2 3 0.45 ] :=
  ⟨by decide, rfl, rfl, rfl, rfl,
   (run_detector_thresholds sample_env 7 sample_argv "data/dog.jpg" (by decide) rfl rfl).elim
     (fun tr h => ⟨tr, h.1, h.2.2 rfl rfl⟩)⟩

/-- C7: with a present input image, the calls of `test_detector` that
parse the configuration, load the model or run a per-frame stage are, in
this order and once each: `read_data_cfg`, `option_find_str`,
`get_labels`, `load_network`, then `load_image_color`, `letterbox_image`
to the network's width and height, `network_predict` on the letterboxed
image's buffer, `get_network_boxes`, `do_nms_sort`, `draw_detections`,
`save_image`. -/
theorem test_detector_stage_order (env : Env) (datacfg cfgfile weightfile : Option String)
    (f : String) (thresh hier_thresh : CFloat) (outfile : Option String) :
    (test_detector env datacfg cfgfile weightfile (some f) thresh hier_thresh outfile).filter
        (fun e => e.is_setup || e.is_stage)
      = [ Event.read_data_cfg datacfg,
          Event.option_find_str (env.read_data_cfg datacfg) "names" (some "data/names.list"),
          Event.get_labels
            (env.option_find_str (env.read_data_cfg datacfg) "names" (some "data/names.list")),
          Event.load_network cfgfile weightfile 0,
          Event.load_image_color (some f) 0 0,
          Event.letterbox_image (loaded_image env (some f))
            (loaded_network env cfgfile weightfile).w (loaded_network env cfgfile weightfile).h,
          Event.network_predict (loaded_network env cfgfile weightfile)
            (letterboxed_image env (loaded_network env cfgfile weightfile) (some f)).data,
          Event.get_network_boxes (loaded_network env cfgfile weightfile)
            (loaded_image env (some f)).w (loaded_image env (some f)).h thresh hier_thresh none 1,
          Event.do_nms_sort
            (decoded env (loaded_network env cfgfile weightfile) (some f) thresh hier_thresh).1
            (decoded env (loaded_network env cfgfile weightfile) (some f) thresh hier_thresh).2
            (loaded_network env cfgfile weightfile).last_layer.classes 0.45,
          Event.draw_detections (loaded_image env (some f))
            (decoded env (loaded_network env cfgfile weightfile) (some f) thresh hier_thresh).1
            (decoded env (loaded_network env cfgfile weightfile) (some f) thresh hier_thresh).2
            thresh (loaded_names env datacfg) env.load_alphabet
            (loaded_network env cfgfile weightfile).last_layer.classes,
          Event.save_image (loaded_image env (some f)) (some (outfile.getD "predictions")) ] := by
  have hnms : ¬ ((0.45 : CFloat) = 0) := by norm_num
  cases outfile <;>
    simp [test_detector, test_detector_image, Event.is_setup, Event.is_stage, loaded_image,
      letterboxed_image, decoded, loaded_network, loaded_names, hnms]

/-- C8: with a present input image whose letterboxed copy lives in a
buffer of its own, `test_detector` releases each per-frame resource once,
after the last call that receives it.  The releases are, in this order,
`free_detections` on the decoder's array with the decoder's count,
`free_image` on the loaded image and `free_image` on the letterboxed
image.  The calls on the loaded image are `letterbox_image`,
`draw_detections`, `save_image`, `free_image`; those on the letterboxed
buffer are `network_predict`, `free_image`; those on the detection array
are `do_nms_sort`, `draw_detections`, `free_detections`. -/
theorem test_detector_releases (env : Env) (datacfg cfgfile weightfile : Option String)
    (f : String) (thresh hier_thresh : CFloat) (outfile : Option String)
    (hfresh : (letterboxed_image env (loaded_network env cfgfile weightfile) (some f)).data
      ≠ (loaded_image env (some f)).data) :
    (test_detector env datacfg cfgfile weightfile (some f) thresh hier_thresh outfile).filter
        Event.is_release
      = [ Event.free_detections
            (decoded env (loaded_network env cfgfile weightfile) (some f) thresh hier_thresh).1
            (decoded env (loaded_network env cfgfile weightfile) (some f) thresh hier_thresh).2,
          Event.free_image (loaded_image env (some f)),
          Event.free_image
            (letterboxed_image env (loaded_network env cfgfile weightfile) (some f)) ]
    ∧ (test_detector env datacfg cfgfile weightfile (some f) thresh hier_thresh outfile).filter
        (Event.uses_buffer (loaded_image env (some f)).data)
      = [ Event.letterbox_image (loaded_image env (some f))
            (loaded_network env cfgfile weightfile).w (loaded_network env cfgfile weightfile).h,
          Event.draw_detections (loaded_image env (some f))
            (decoded env (loaded_network env cfgfile weightfile) (some f) thresh hier_thresh).1
            (decoded env (loaded_network env cfgfile weightfile) (some f) thresh hier_thresh).2
            thresh (loaded_names env datacfg) env.load_alphabet
            (loaded_network env cfgfile weightfile).last_layer.classes,
          Event.save_image (loaded_image env (some f)) (some (outfile.getD "predictions")),
          Event.free_image (loaded_image env (some f)) ]
    ∧ (test_detector env datacfg cfgfile weightfile (some f) thresh hier_thresh outfile).filter
        (Event.uses_buffer
          (letterboxed_image env (loaded_network env cfgfile weightfile) (some f)).data)
      = [ Event.network_predict (loaded_network env cfgfile weightfile)
            (letterboxed_image env (loaded_network env cfgfile weightfile) (some f)).data,
          Event.free_image
            (letterboxed_image env (loaded_network env cfgfile weightfile) (some f)) ]
    ∧ (test_detector env datacfg cfgfile weightfile (some f) thresh hier_thresh outfile).filter
        (Event.uses_detections
          (decoded env (loaded_network env cfgfile weightfile) (some f) thresh hier_thresh).1)
      = [ Event.do_nms_sort
            (decoded env (loaded_network env cfgfile weightfile) (some f) thresh hier_thresh).1
            (decoded env (loaded_network env cfgfile weightfile) (some f) thresh hier_thresh).2
            (loaded_network env cfgfile weightfile).last_layer.classes 0.45,
          Event.draw_detections (loaded_image env (some f))
            (decoded env (loaded_network env cfgfile weightfile) (some f) thresh hier_thresh).1
            (decoded env (loaded_network env cfgfile weightfile) (some f) thresh hier_thresh).2
            thresh (loaded_names env datacfg) env.load_alphabet
            (loaded_network env cfgfile weightfile).last_layer.classes,
          Event.free_detections
            (decoded env (loaded_network env cfgfile weightfile) (some f) thresh hier_thresh).1
            (decoded env (loaded_network env cfgfile weightfile) (some f) thresh hier_thresh).2 ]
    ∧ released_once
        (Event.uses_buffer (loaded_image env (some f)).data)
        (Event.frees_buffer (loaded_image env (some f)).data)
        (test_detector env datacfg cfgfile weightfile (some f) thresh hier_thresh outfile)
    ∧ released_once
        (Event.uses_buffer
          (letterboxed_image env (loaded_network env cfgfile weightfile) (some f)).data)
        (Event.frees_buffer
          (letterboxed_image env (loaded_network env cfgfile weightfile) (some f)).data)
        (test_detector env datacfg cfgfile weightfile (some f) thresh hier_thresh outfile)
    ∧ released_once
        (Event.uses_detections
          (decoded env (loaded_network env cfgfile weightfile) (some f) thresh hier_thresh).1)
        (Event.frees_detections
          (decoded env (loaded_network env cfgfile weightfile) (some f) thresh hier_thresh).1)
        (test_detector env datacfg cfgfile weightfile (some f) thresh hier_thresh outfile) := by
  have hnms : ¬ ((0.45 : CFloat) = 0) := by norm_num
  have hfresh2 := Ne.symm hfresh
  simp only [letterboxed_image, loaded_image, loaded_network] at hfresh hfresh2
  have hb := beq_false_of_ne hfresh
  have hb2 := beq_false_of_ne hfresh2
  refine ⟨?_, ?_, ?_, ?_, ?_, ?_, ?_⟩
  · cases outfile <;>
      simp [test_detector, test_detector_image, Event.is_release, loaded_image,
        letterboxed_image, decoded, loaded_network, hnms]
  · cases outfile <;>
      simp [test_detector, test_detector_image, Event.uses_buffer, loaded_image,
        letterboxed_image, decoded, loaded_network, loaded_names, hnms, hfresh, hfresh2, hb,
        hb2]
  · cases outfile <;>
      simp [test_detector, test_detector_image, Event.uses_buffer, loaded_image,
        letterboxed_image, decoded, loaded_network, loaded_names, hnms, hfresh, hfresh2, hb,
        hb2]
  · cases outfile <;>
      simp [test_detector, test_detector_image, Event.uses_detections, loaded_image,
        letterboxed_image, decoded, loaded_network, loaded_names, hnms]
  · cases outfile <;>
      simp [released_once, test_detector, test_detector_image, Event.uses_buffer,
        Event.frees_buffer, loaded_image, letterboxed_image, decoded, loaded_network, hnms,
        hfresh, hfresh2, hb, hb2, List.dropWhile]
  · cases outfile <;>
      simp [released_once, test_detector, test_detector_image, Event.uses_buffer,
        Event.frees_buffer, loaded_image, letterboxed_image, decoded, loaded_network, hnms,
        hfresh, hfresh2, hb, hb2, List.dropWhile]
  · cases outfile <;>
      simp [released_once, test_detector, test_detector_image, Event.uses_detections,
        Event.frees_detections, loaded_image, letterboxed_image, decoded, loaded_network, hnms,
        List.dropWhile]

/-- C8 at the sample run: the letterboxed image has a buffer of its own,
and the theorem applies. -/
theorem test_detector_releases_witness :
    (letterboxed_image sample_env (loaded_network sample_env (some "cfg/yolov3.cfg")
        (some "yolov3.weights")) (some "data/dog.jpg")).data
      ≠ (loaded_image sample_env (some "data/dog.jpg")).data
    ∧ (test_detector sample_env (some "cfg/coco.data") (some "cfg/yolov3.cfg")
          (some "yolov3.weights") (some "data/dog.jpg") 0.5 0.5 none).filter Event.is_release
        = [ Event.free_detections 300 2,
            Event.free_image ⟨768, 576, 3, 100⟩,
            Event.free_image ⟨416, 416, 3, 200⟩ ]
    ∧ (test_detector sample_env (some "cfg/coco.data") (some "cfg/yolov3.cfg")
          (some "yolov3.weights") (some "data/dog.jpg") 0.5 0.5 none).filter
          (Event.uses_buffer 100)
        = [ Event.letterbox_image ⟨768, 576, 3, 100⟩ 416 416,
            Event.draw_detections ⟨768, 576, 3, 100⟩ 300 2 0.5 ["person", "bicycle", "dog"] 7 3,
            Event.save_image ⟨768, 576, 3, 100⟩ (some "predictions"),
            Event.free_image ⟨768, 576, 3, 100⟩ ]
    ∧ (test_detector sample_env (some "cfg/coco.data") (some "cfg/yolov3.cfg")
          (some "yolov3.weights") (some "data/dog.jpg") 0.5 0.5 none).filter
          (Event.uses_buffer 200)
        = [ Event.network_predict (loaded_network sample_env (some "cfg/yolov3.cfg")
              (some "yolov3.weights")) 200,
            Event.free_image ⟨416, 416, 3, 200⟩ ]
    ∧ (test_detector sample_env (some "cfg/coco.data") (some "cfg/yolov3.cfg")
          (some "yolov3.weights") (some "data/dog.jpg") 0.5 0.5 none).filter
          (Event.uses_detections 300)
        = [ Event.do_nms_sort 300 2 3 0.45,
            Event.draw_detections ⟨768, 576, 3, 100⟩ 300 2 0.5 ["person", "bicycle", "dog"] 7 3,
            Event.free_detections 300 2 ]
    ∧ released_once (Event.uses_buffer 100) (Event.frees_buffer 100)
        (test_detector sample_env (some "cfg/coco.data") (some "cfg/yolov3.cfg")
          (some "yolov3.weights") (some "data/dog.jpg") 0.5 0.5 none)
    ∧ released_once (Event.uses_buffer 200) (Event.frees_buffer 200)
        (test_detector sample_env (some "cfg/coco.data") (some "cfg/yolov3.cfg")
          (some "yolov3.weights") (some "data/dog.jpg") 0.5 0.5 none)
    ∧ released_once (Event.uses_detections 300) (Event.frees_detections 300)
        (test_detector sample_env (some "cfg/coco.data") (some "cfg/yolov3.cfg")
          (some "yolov3.weights") (some "data/dog.jpg") 0.5 0.5 none) :=
  ⟨by decide,
   test_detector_releases sample_env (some "cfg/coco.data") (some "cfg/yolov3.cfg")
     (some "yolov3.weights") "data/dog.jpg" 0.5 0.5 none (by decide)⟩

/-- C9: `run_detector` returns unless `argc >= 4` and `argv[2]` is null.
When it returns, its run holds at most one dispatch (an entry of
`test_detector` or a call of `demo`); it enters `test_detector` exactly
when `argc >= 4` and `argv[2]` is `test`, and calls `demo` exactly when
`argc >= 4` and `argv[2]` is `demo`.  In the test case the one dispatch is
the entry of `test_detector` with `argv[3]`, `argv[4]`, `argv[5]` if
`argc > 5` and null otherwise, `argv[6]` if `argc > 6` and null otherwise,
and the parsed threshold, hierarchy threshold and output path.  Here `argv`
is the vector as lines 122-130 read it. -/
theorem run_detector_dispatch (env : Env) (argc : Int) (argv : Argv) :
    (run_detector env argc argv = none
      ↔ 4 ≤ argc ∧ (argv_at_dispatch env argc argv).nth 2 = none)
    ∧ ∀ tr, run_detector env argc argv = some tr →
      (tr.filter Event.is_dispatch).length ≤ 1
      ∧ (tr.any Event.is_test_detector = true
          ↔ 4 ≤ argc ∧ (argv_at_dispatch env argc argv).nth 2 = some "test")
      ∧ (tr.any Event.is_demo = true
          ↔ 4 ≤ argc ∧ (argv_at_dispatch env argc argv).nth 2 = some "demo")
      ∧ (4 ≤ argc → (argv_at_dispatch env argc argv).nth 2 = some "test" →
          tr.filter Event.is_dispatch
            = [ Event.test_detector
                  ((argv_at_dispatch env argc argv).nth 3)
                  ((argv_at_dispatch env argc argv).nth 4)
                  (if argc > 5 then (argv_at_dispatch env argc argv).nth 5 else none)
                  (if argc > 6 then (argv_at_dispatch env argc argv).nth 6 else none)
                  (opt_thresh env argc argv).1 (opt_hier env argc argv).1
                  (opt_outfile env argc argv).1 ]) := by
  have hhead : head_lookups.filter Event.is_dispatch = [] := by decide
  have htail : tail_lookups.filter Event.is_dispatch = [] := by decide
  have hhead1 : head_lookups.any Event.is_test_detector = false := by decide
  have htail1 : tail_lookups.any Event.is_test_detector = false := by decide
  have hhead2 : head_lookups.any Event.is_demo = false := by decide
  have htail2 : tail_lookups.any Event.is_demo = false := by decide
  by_cases hlt : argc < 4
  · have hge : ¬ 4 ≤ argc := not_le.mpr hlt
    rw [run_detector_usage env argc argv hlt]
    refine ⟨by simp [hge], ?_⟩
    intro tr htr
    cases htr
    simp [hge, hhead, hhead1, hhead2, List.filter_append, Event.is_dispatch,
      Event.is_test_detector, Event.is_demo]
  · have hge : 4 ≤ argc := not_lt.mp hlt
    cases hsel : (argv_at_dispatch env argc argv).nth 2 with
    | none =>
      rw [run_detector_null_mode env argc argv hge hsel]
      simp [hge]
    | some mode =>
      by_cases htest : mode = "test"
      · subst htest
        rw [run_detector_test env argc argv hge hsel]
        refine ⟨by simp, ?_⟩
        intro tr htr
        cases htr
        simp [hge, hhead, htail, hhead1, htail1, hhead2, htail2, List.filter_append,
          test_detector_filter_dispatch, test_detector_any_demo, test_detector_any_entry]
      · by_cases hdemo : mode = "demo"
        · subst hdemo
          rw [run_detector_demo env argc argv hge hsel]
          refine ⟨by simp, ?_⟩
          intro tr htr
          cases htr
          simp [hge, hhead, htail, hhead1, htail1, hhead2, htail2, List.filter_append,
            Event.is_dispatch, Event.is_test_detector, Event.is_demo]
        · rw [run_detector_other env argc argv mode hge hsel htest hdemo]
          refine ⟨by simp, ?_⟩
          intro tr htr
          cases htr
          simp [hge, hhead, htail, hhead1, htail1, hhead2, htail2, List.filter_append,
            Event.is_dispatch, Event.is_test_detector, Event.is_demo, htest, hdemo]

/-- C9 at the sample command line: the run enters `test_detector` once,
with the four paths of the command line and the default thresholds. -/
theorem run_detector_dispatch_witness :
    (4 : Int) ≤ 7
    ∧ (argv_at_dispatch sample_env 7 sample_argv).nth 2 = some "test"
    ∧ ∃ tr, run_detector sample_env 7 sample_argv = some tr
      ∧ tr.filter Event.is_dispatch
        = [ Event.test_detector (some "cfg/coco.data") (some "cfg/yolov3.cfg")
              (some "yolov3.weights") (some "data/dog.jpg") 0.5 0.5 none ] :=
  ⟨by decide, rfl, _, run_detector_test sample_env 7 sample_argv (by decide) rfl,
   ((run_detector_dispatch sample_env 7 sample_argv).2 _
      (run_detector_test sample_env 7 sample_argv (by decide) rfl)).2.2.2 (by decide) rfl⟩

/-- C10: with a present input image, `get_network_boxes` receives the
width and height of the image returned by `load_image_color` and the
relative flag 1 (while `letterbox_image` receives the network's width and
height), and the array and count it returns are the ones passed to
`do_nms_sort`, `draw_detections` and `free_detections`; `draw_detections`
receives the decoder's threshold and the class count of the last element of
the network's layer array. -/
theorem test_detector_decodes_in_image_frame (env : Env)
    (datacfg cfgfile weightfile : Option String) (f : String) (thresh hier_thresh : CFloat)
    (outfile : Option String) :
    (test_detector env datacfg cfgfile weightfile (some f) thresh hier_thresh outfile).filter
        (fun e => e.is_letterbox || e.is_decode || e.is_on_detections)
      = [ Event.letterbox_image (env.load_image_color (some f) 0 0)
            (env.load_network cfgfile weightfile 0).w (env.load_network cfgfile weightfile 0).h,
          Event.get_network_boxes (env.load_network cfgfile weightfile 0)
            (env.load_image_color (some f) 0 0).w (env.load_image_color (some f) 0 0).h
            thresh hier_thresh none 1,
          Event.do_nms_sort
            (env.get_network_boxes (env.load_network cfgfile weightfile 0)
              (env.load_image_color (some f) 0 0).w (env.load_image_color (some f) 0 0).h
              thresh hier_thresh none 1).1
            (env.get_network_boxes (env.load_network cfgfile weightfile 0)
              (env.load_image_color (some f) 0 0).w (env.load_image_color (some f) 0 0).h
              thresh hier_thresh none 1).2
            ((env.load_network cfgfile weightfile 0).layers.getLast
              (env.load_network cfgfile weightfile 0).nonempty).classes 0.45,
          Event.draw_detections (env.load_image_color (some f) 0 0)
            (env.get_network_boxes (env.load_network cfgfile weightfile 0)
              (env.load_image_color (some f) 0 0).w (env.load_image_color (some f) 0 0).h
              thresh hier_thresh none 1).1
            (env.get_network_boxes (env.load_network cfgfile weightfile 0)
              (env.load_image_color (some f) 0 0).w (env.load_image_color (some f) 0 0).h
              thresh hier_thresh none 1).2
            thresh
            (env.get_labels (env.option_find_str (env.read_data_cfg datacfg) "names"
              (some "data/names.list")))
            env.load_alphabet
            ((env.load_network cfgfile weightfile 0).layers.getLast
              (env.load_network cfgfile weightfile 0).nonempty).classes,
          Event.free_detections
            (env.get_network_boxes (env.load_network cfgfile weightfile 0)
              (env.load_image_color (some f) 0 0).w (env.load_image_color (some f) 0 0).h
              thresh hier_thresh none 1).1
            (env.get_network_boxes (env.load_network cfgfile weightfile 0)
              (env.load_image_color (some f) 0 0).w (env.load_image_color (some f) 0 0).h
              thresh hier_thresh none 1).2 ] := by
  have hnms : ¬ ((0.45 : CFloat) = 0) := by norm_num
  rw [← network.last_layer_eq_getLast]
  cases outfile <;>
    simp [test_detector, test_detector_image, Event.is_letterbox, Event.is_decode,
      Event.is_on_detections, hnms]

end Detector
